import Mathlib

/-!
Verification development for the lanzat hurricane-vulnerability pipeline.

The Python sources are shallowly embedded over `ℚ` (modelling Python floats
with exact rational arithmetic).  A pandas/Python `NaN` or a value of `None`
is modelled with `Option`: `Option.none` stands for the missing/NaN value and
arithmetic on it propagates `none` exactly where float arithmetic propagates
`NaN`.  `float("inf")` returned by `haversine_distance` is likewise modelled
by `Option.none` in the distance domain (it compares as never-smaller, which
is all the classifier observes about it).

The transcendental core of the haversine formula (sin/cos/asin/sqrt) has no
exact rational embedding; the classifier definitions are therefore
parameterised by an arbitrary finite-distance core `core : ℚ → ℚ → ℚ → ℚ → ℚ`.
None of the verified claims depends on the numeric value that core returns,
only on the conversion/failure behaviour around it and on the threshold logic
applied to its output.
-/

namespace Lanzat

/-! ## Basic list min/max helpers

`pandas.Series.min` / `.max` over a numeric column, embedded as folds.
The empty-list value 0 is an arbitrary placeholder: every use below guards
on emptiness (an empty series gives `min == max`, taking the constant
branch of `normalize_score`). -/

/-- Minimum of a rational list (`values.min()` in pandas); 0 for `[]`. -/
def listMin : List ℚ → ℚ
  | [] => 0
  | x :: xs => xs.foldl min x

/-- Maximum of a rational list (`values.max()` in pandas); 0 for `[]`. -/
def listMax : List ℚ → ℚ
  | [] => 0
  | x :: xs => xs.foldl max x

/-! ## Metric Normalizer

`normalize_score` from `lanzat-backend/scripts/process_data.py` lines 137-156:

```python
def normalize_score(values, inverse=False):
    min_val = values.min()
    max_val = values.max()
    if max_val == min_val:
        return pd.Series([0.5] * len(values), index=values.index)
    normalized = (values - min_val) / (max_val - min_val)
    if inverse:
        normalized = 1 - normalized
    return normalized
```
-/

/-- Embedding of `normalize_score` (process_data.py:137-156). -/
def normalize_score (values : List ℚ) (inverse : Bool) : List ℚ :=
  let min_val := listMin values
  let max_val := listMax values
  if max_val = min_val then
    values.map (fun _ => 1/2)
  else
    values.map (fun v =>
      let normalized := (v - min_val) / (max_val - min_val)
      if inverse then 1 - normalized else normalized)

/-- Clamp into `[0,1]`, embedding `pandas.Series.clip(0, 1)` elementwise. -/
def clip01 (x : ℚ) : ℚ := max 0 (min 1 x)

/-- Elementwise combination of three equal-length series (pandas columnwise
arithmetic; rows beyond the shortest column do not arise in the sources,
where all columns of one frame share the index). -/
def zipWith3 (f : ℚ → ℚ → ℚ → ℚ) : List ℚ → List ℚ → List ℚ → List ℚ
  | a :: as, b :: bs, c :: cs => f a b c :: zipWith3 f as bs cs
  | _, _, _ => []

/-! ## Composite Scorer, base version

`calculate_vulnerability_scores` from
`lanzat-backend/scripts/process_data.py` lines 159-249 (scoring core,
lines 203-216):

```python
result["gdp_per_capita"] = result["gdp"] * 1_000_000 / result["population"]
result["economic_vulnerability"] = normalize_score(result["gdp_per_capita"], inverse=True)
result["vulnerability_score"] = (
    0.40 * result["hurricane_risk"] +
    0.30 * result["social_vulnerability"] +
    0.30 * result["economic_vulnerability"])
result["vulnerability_score"] = result["vulnerability_score"].clip(0, 1)
```
-/

/-- GDP-per-capita column (process_data.py:205). -/
def gdp_per_capita (gdp population : List ℚ) : List ℚ :=
  List.zipWith (fun g p => g * 1000000 / p) gdp population

/-- Economic-vulnerability column: inverse-normalized GDP per capita
(process_data.py:206). -/
def economic_vulnerability (gdp population : List ℚ) : List ℚ :=
  normalize_score (gdp_per_capita gdp population) true

/-- Embedding of the scoring core of `calculate_vulnerability_scores`
(process_data.py:203-216): the `base` formula version. -/
def calculate_vulnerability_scores
    (hurricane_risk social_vulnerability gdp population : List ℚ) : List ℚ :=
  zipWith3
    (fun h s e => clip01 (40/100 * h + 30/100 * s + 30/100 * e))
    hurricane_risk social_vulnerability (economic_vulnerability gdp population)

/-! ## Composite Scorer, NOAA-enhanced version

`update_vulnerability_with_noaa_risk` from
`lanzat-backend/scripts/calculate_real_hurricane_risk.py` lines 112-118:

```python
gdf["vulnerability_score"] = (
    0.40 * gdf["hurricane_risk"] +
    0.30 * gdf["social_vulnerability"] +
    0.30 * gdf["economic_vulnerability"]
).clip(0, 1)
```

`hurricane_risk` here is the NOAA frequency/intensity-derived column; the
social and economic columns are read back from the previously scored layer.
-/

/-- Embedding of the NOAA-enhanced recomputation
(calculate_real_hurricane_risk.py:112-118). -/
def noaa_vulnerability_scores
    (hurricane_risk social_vulnerability econ_vulnerability : List ℚ) : List ℚ :=
  zipWith3
    (fun h s e => clip01 (40/100 * h + 30/100 * s + 30/100 * e))
    hurricane_risk social_vulnerability econ_vulnerability

/-! ## Composite Scorer, Statista-enhanced version

`calculate_enhanced_vulnerability` from
`lanzat-backend/scripts/enrich_with_statista.py` lines 42-151.  The
property-exposure normalization (lines 89-90) has no `max == min` guard:

```python
result["property_exposure"] = (result["median_home_value"] - result["median_home_value"].min()) / \
                               (result["median_home_value"].max() - result["median_home_value"].min())
```

so when every `median_home_value` is identical the float computation is
`0.0 / 0.0 = NaN`; that NaN is modelled by `Option.none`.  Likewise
`result["rural_status"].map(rural_map)` (line 99) yields NaN for a status
string outside the four mapped keys.  `clip(0, 1)` leaves NaN in place, and
NaN propagates through the weighted sum, so the enhanced score of such a row
is `none`. -/

/-- The `rural_map` dictionary (enrich_with_statista.py:93-98); `Series.map`
gives NaN (`none`) outside the dictionary. -/
def rural_map (s : String) : Option ℚ :=
  if s = "rural" then some 1 else
  if s = "rural_coastal" then some (9/10) else
  if s = "suburban" then some (4/10) else
  if s = "urban" then some (2/10) else none

/-- Property-exposure column (enrich_with_statista.py:89-90); `none` models
the NaN produced by the unguarded `0.0 / 0.0` when all home values agree. -/
def property_exposure (median_home_value : List ℚ) : List (Option ℚ) :=
  let mn := listMin median_home_value
  let mx := listMax median_home_value
  median_home_value.map (fun v =>
    if mx - mn = 0 then none else some ((v - mn) / (mx - mn)))

/-- Elementwise combination of five columns, the last two NaN-aware. -/
def zipWith5Opt (f : ℚ → ℚ → ℚ → ℚ → ℚ → ℚ) :
    List ℚ → List ℚ → List ℚ → List (Option ℚ) → List (Option ℚ) → List (Option ℚ)
  | a :: as, b :: bs, c :: cs, d :: ds, e :: es =>
    (match d, e with
     | some dv, some ev => some (f a b c dv ev)
     | _, _ => none) :: zipWith5Opt f as bs cs ds es
  | _, _, _, _, _ => []

/-- Embedding of the Statista-enhanced scoring core
(enrich_with_statista.py:89-120).  A `none` entry is a NaN row (degenerate
property normalization or unmapped rural status); `clip(0, 1)` keeps NaN. -/
def calculate_enhanced_vulnerability
    (hurricane_risk social_vulnerability econ_vulnerability : List ℚ)
    (median_home_value : List ℚ) (rural_status : List String) : List (Option ℚ) :=
  zipWith5Opt
    (fun h s e p r =>
      clip01 (25/100 * h + 20/100 * s + 20/100 * e + 20/100 * p + 15/100 * r))
    hurricane_risk social_vulnerability econ_vulnerability
    (property_exposure median_home_value)
    (rural_status.map rural_map)

/-! ## Legacy scorer of `integrate_data.py`

`calculate_vulnerability_score` from `integrate_data.py` lines 81-113:

```python
svi_score = row.get("RPL_THEMES", 0.5)
risk_map = {...}
hurricane_score = risk_map.get(row.get("HRCN_RISKR", "Relatively Moderate"), 0.5)
gdp_per_capita = row.get("GDP_PER_CAPITA", 50000)
economic_score = 1 - min(gdp_per_capita / max_gdp_per_capita, 1)
vulnerability_score = svi_score * 0.4 + hurricane_score * 0.4 + economic_score * 0.2
return round(vulnerability_score, 4)
```

Rows come from the merged frame of `integrate_datasets`, where the columns
`RPL_THEMES`, `HRCN_RISKR`, `GDP_PER_CAPITA` always exist (the merges and the
fill at integrate_data.py:244-249 create them), so the `Series.get` defaults
for an absent column never fire; what `Series.get` returns for a present
column is its value, including NaN.  `RPL_THEMES` is therefore `Option ℚ`
(NaN for counties unmatched in the SVI table) and NaN propagates through the
weighted sum and `round`.  `HRCN_RISKR` is `Option String` (NaN for counties
unmatched in the NRI table); `risk_map.get(nan, 0.5)` returns 0.5 because the
float NaN is not a key of the string-keyed dictionary.  `GDP_PER_CAPITA` is
always a number after `.fillna(50000)`. -/

/-- One merged county row as seen by the legacy scorer. -/
structure IntegrateRow where
  rplThemes : Option ℚ
  hrcnRiskr : Option String
  gdpPerCapita : ℚ
deriving DecidableEq

/-- The `risk_map` dictionary (integrate_data.py:90-97). -/
def risk_map (s : String) : Option ℚ :=
  if s = "Very Low" then some (1/10) else
  if s = "Relatively Low" then some (3/10) else
  if s = "Relatively Moderate" then some (5/10) else
  if s = "Relatively High" then some (7/10) else
  if s = "Very High" then some (9/10) else
  if s = "Not Applicable" then some 0 else none

/-- Python `round` to an integer: round-half-to-even on rationals. -/
def roundHalfEven (q : ℚ) : ℤ :=
  let f := ⌊q⌋
  if q - f < 1/2 then f
  else if 1/2 < q - f then f + 1
  else if f % 2 = 0 then f else f + 1

/-- Python `round(x, 4)`. -/
def pyRound4 (q : ℚ) : ℚ := (roundHalfEven (q * 10000) : ℚ) / 10000

/-- Embedding of the legacy `calculate_vulnerability_score`
(integrate_data.py:81-113).  Result `none` is a NaN score. -/
def integrate_vulnerability_score (row : IntegrateRow) : Option ℚ :=
  let hurricane_score : ℚ :=
    match row.hrcnRiskr with
    | none => 1/2
    | some s => (risk_map s).getD (1/2)
  let economic_score : ℚ := 1 - min (row.gdpPerCapita / 150000) 1
  match row.rplThemes with
  | none => none
  | some svi_score =>
    some (pyRound4 (svi_score * (4/10) + hurricane_score * (4/10) + economic_score * (2/10)))

/-! ## Dataset Loader/Merger of `integrate_data.py`

`integrate_datasets` (integrate_data.py:128-350) left-joins the GDP, SVI and
NRI tables onto the county base layer by FIPS key (lines 205-234), then fills
`GDP_PER_CAPITA` (lines 244-247) and scores each row.  A pandas
`merge(..., how="left")` keeps every base row; a base row unmatched in the
auxiliary table receives NaN in the auxiliary columns, and a base row with
several matches is repeated once per match. -/

/-- One pandas left merge: every base row is kept; unmatched rows get `none`,
multiply-matched rows are repeated once per match. -/
def left_merge {α β : Type} (base : List β) (key : β → String)
    (aux : List (String × α)) : List (β × Option α) :=
  base.flatMap (fun b =>
    match aux.filter (fun p => p.1 == key b) with
    | [] => [(b, none)]
    | ms => ms.map (fun p => (b, some p.2)))

/-- A county row after the three merges of integrate_data.py:205-234.
`gdp2023` carries `GDP_2023`, `rplThemes`/`eTotpop` come from the SVI table,
`hrcnRiskr` from the NRI table; `none` is the NaN of an unmatched join. -/
structure MergedRow where
  fips : String
  gdp2023 : Option ℚ
  rplThemes : Option ℚ
  eTotpop : Option ℚ
  hrcnRiskr : Option String
deriving DecidableEq

/-- The three successive left merges of integrate_data.py:205-234, keyed by
FIPS.  The SVI table contributes the pair (RPL_THEMES, E_TOTPOP). -/
def integrate_merge (base : List String) (gdpTable : List (String × ℚ))
    (sviTable : List (String × ℚ × ℚ)) (nriTable : List (String × String)) :
    List MergedRow :=
  let m1 := left_merge base id gdpTable
  let m2 := left_merge m1 (fun r => r.1) sviTable
  let m3 := left_merge m2 (fun r => r.1.1) nriTable
  m3.map (fun r =>
    { fips := r.1.1.1
      gdp2023 := r.1.1.2
      rplThemes := r.1.2.map Prod.fst
      eTotpop := r.1.2.map (fun x => x.2)
      hrcnRiskr := r.2 })

/-- `GDP_PER_CAPITA` fill (integrate_data.py:244-247):
`(GDP_2023 * 1000000 / E_TOTPOP).fillna(50000)` — the product/quotient is NaN
when either operand is NaN, and `fillna` replaces it with 50000.  (A zero
population, which float division would send to ±inf rather than NaN, does
not occur in the data and is not modelled.) -/
def integrate_gdp_per_capita (r : MergedRow) : ℚ :=
  match r.gdp2023, r.eTotpop with
  | some g, some p => g * 1000000 / p
  | _, _ => 50000

/-- A scored county row of the integrate_data.py output frame. -/
structure ScoredRow where
  fips : String
  gdpPerCapita : ℚ
  score : Option ℚ
deriving DecidableEq

/-- Embedding of the merge-fill-score fragment of `integrate_datasets`
(integrate_data.py:205-255). -/
def integrate_datasets (base : List String) (gdpTable : List (String × ℚ))
    (sviTable : List (String × ℚ × ℚ)) (nriTable : List (String × String)) :
    List ScoredRow :=
  (integrate_merge base gdpTable sviTable nriTable).map (fun r =>
    let gpc := integrate_gdp_per_capita r
    { fips := r.fips
      gdpPerCapita := gpc
      score := integrate_vulnerability_score ⟨r.rplThemes, r.hrcnRiskr, gpc⟩ })

/-- Embedding of the ranking step (integrate_data.py:263-266):
`.rank(ascending=False, method="min").astype(int)`.  With descending order
and `min` tie-breaking, the rank of a value is one more than the number of
strictly greater values in the column; tied values share that rank. -/
def rank_min_desc (scores : List ℚ) : List ℕ :=
  scores.map (fun v => 1 + (scores.filter (fun w => decide (v < w))).length)

/-! ## Real-Time Threat Classifier

`lanzat-backend/scripts/fetch_active_hurricanes.py`. -/

/-- A Python value fed to `float(...)`: either a number, or something the
conversion rejects with `TypeError`/`ValueError` (this covers `None` and
non-numeric strings alike). -/
inductive PyVal where
  | num (q : ℚ)
  | nonNumeric
deriving DecidableEq

/-- The `float(...)` conversion attempted at fetch_active_hurricanes.py:42. -/
def toFloat? : PyVal → Option ℚ
  | .num q => some q
  | .nonNumeric => none

/-- Embedding of `haversine_distance` (fetch_active_hurricanes.py:36-53).
If any argument fails `float(...)`, the `except` clause returns
`float("inf")`, modelled by `none`; otherwise the great-circle formula
`R * c` is computed, modelled by the abstract finite core. -/
def haversine_distance (core : ℚ → ℚ → ℚ → ℚ → ℚ)
    (lat1 lon1 lat2 lon2 : PyVal) : Option ℚ :=
  match toFloat? lat1, toFloat? lon1, toFloat? lat2, toFloat? lon2 with
  | some a, some b, some c, some d => some (core a b c d)
  | _, _, _, _ => none

/-- An active-storm record as used by the classifier (the fields of the
`storm_info` dictionary that the distance loop reads). -/
structure Storm where
  latitude : PyVal
  longitude : PyVal
  name : String
deriving DecidableEq

/-- The `<` comparison on distances where `none` is `float("inf")`:
`inf < x` is false for every `x`, and `d < inf` is true for finite `d`. -/
def ltInf : Option ℚ → Option ℚ → Bool
  | none, _ => false
  | some _, none => true
  | some a, some b => decide (a < b)

/-- The minimum-distance loop of `calculate_county_threats`
(fetch_active_hurricanes.py:146-158): the accumulator is
`(min_distance, nearest_storm)`, starting from `(inf, None)`. -/
def scanStorms (core : ℚ → ℚ → ℚ → ℚ → ℚ) (clat clon : ℚ)
    (storms : List Storm) : Option ℚ × Option Storm :=
  storms.foldl
    (fun acc storm =>
      let d := haversine_distance core (.num clat) (.num clon)
                 storm.latitude storm.longitude
      if ltInf d acc.1 then (d, some storm) else acc)
    (none, none)

/-- The discrete threat bands. -/
inductive ThreatLevel where
  | extreme
  | high
  | moderate
  | low
  | none
deriving DecidableEq

/-- The threshold chain of fetch_active_hurricanes.py:29-34 and 160-170
applied to a finite distance: `<=100` extreme, `<=250` high, `<=500`
moderate, `<=1000` low, otherwise none. -/
def threatBand (d : ℚ) : ThreatLevel :=
  if d ≤ 100 then .extreme
  else if d ≤ 250 then .high
  else if d ≤ 500 then .moderate
  else if d ≤ 1000 then .low
  else .none

/-- Threat level of one county (fetch_active_hurricanes.py:160-170):
`none` when `nearest_storm` is unset; when it is set the threshold chain
runs on `min_distance` (an infinite `min_distance` fails every `<=` test and
leaves `none`, which cannot in fact co-occur with a set `nearest_storm`). -/
def countyThreatLevel (core : ℚ → ℚ → ℚ → ℚ → ℚ) (clat clon : ℚ)
    (storms : List Storm) : ThreatLevel :=
  match scanStorms core clat clon storms with
  | (_, Option.none) => .none
  | (Option.none, some _) => .none
  | (some d, some _) => threatBand d

/-- A county row entering the threat loop: its name, its centroid as found
in the geometry dictionary (`none` when the name is absent, in which case
the loop `continue`s past the county), and the vulnerability score the
record carries (`enhanced_vulnerability`, falling back to
`vulnerability_score`, fetch_active_hurricanes.py:180). -/
structure CountyRow where
  name : String
  centroid : Option (ℚ × ℚ)
  vulnerability : ℚ
deriving DecidableEq

/-- One per-county threat record (the fields of the `county_threat`
dictionary that the summary and the serving layer read). -/
structure CountyThreat where
  name : String
  current_threat_level : ThreatLevel
  enhanced_vulnerability : ℚ
deriving DecidableEq

/-- Embedding of `calculate_county_threats`
(fetch_active_hurricanes.py:110-185): counties without a centroid entry are
skipped, every other county gets a threat record. -/
def calculate_county_threats (core : ℚ → ℚ → ℚ → ℚ → ℚ)
    (counties : List CountyRow) (storms : List Storm) : List CountyThreat :=
  counties.filterMap (fun c =>
    match c.centroid with
    | Option.none => none
    | some (clat, clon) =>
      some { name := c.name
             current_threat_level := countyThreatLevel core clat clon storms
             enhanced_vulnerability := c.vulnerability })

/-- Embedding of `fetch_active_storms` (fetch_active_hurricanes.py:55-91).
The argument models the outcome of the HTTP request: `Except.error` is a
`requests` exception (caught, returning `[]`), `Except.ok none` a payload
without a non-empty `activeStorms` key, and `Except.ok (some l)` a payload
whose storm entries have already been shaped into `Storm` records (the
per-field `.get` defaults of lines 69-81 are identities on that shape). -/
def fetch_active_storms (response : Except Unit (Option (List Storm))) :
    List Storm :=
  match response with
  | .error _ => []
  | .ok Option.none => []
  | .ok (some storms) => storms

/-- The critical-county predicate shared by
`generate_summary_stats` (fetch_active_hurricanes.py:199-203) and
`get_critical_threats` (app/main.py:489-496): threat level in
{extreme, high} and vulnerability at least 0.6. -/
def isCritical (t : CountyThreat) : Bool :=
  decide ((t.current_threat_level = ThreatLevel.extreme ∨
           t.current_threat_level = ThreatLevel.high) ∧
          6/10 ≤ t.enhanced_vulnerability)

/-- Descending-by-vulnerability order used by both critical lists.  Python's
`list.sort(key=..., reverse=True)` is a stable sort; `List.insertionSort`
with this total relation is likewise stable. -/
def vulnGE (a b : CountyThreat) : Prop :=
  b.enhanced_vulnerability ≤ a.enhanced_vulnerability

instance : DecidableRel vulnGE := fun a b =>
  inferInstanceAs (Decidable (b.enhanced_vulnerability ≤ a.enhanced_vulnerability))

/-- Embedding of the `/api/realtime/critical-threats` filter-and-sort
(app/main.py:484-496): all critical counties, sorted descending by
vulnerability. -/
def get_critical_threats (threats : List CountyThreat) : List CountyThreat :=
  List.insertionSort vulnGE (threats.filter isCritical)

/-- Embedding of the `critical_counties` entry of `generate_summary_stats`
(fetch_active_hurricanes.py:199-211): same filter and sort, then
`critical_counties[:10]`. -/
def summary_critical_counties (threats : List CountyThreat) : List CountyThreat :=
  (List.insertionSort vulnGE (threats.filter isCritical)).take 10

/-! ## Helper lemmas about `listMin` / `listMax` -/

lemma foldl_min_le_init (l : List ℚ) (a : ℚ) : l.foldl min a ≤ a := by
  induction l generalizing a with
  | nil => exact le_refl a
  | cons x xs ih => exact le_trans (ih (min a x)) (min_le_left a x)

lemma foldl_min_le_mem {l : List ℚ} {v : ℚ} (hv : v ∈ l) (a : ℚ) :
    l.foldl min a ≤ v := by
  induction l generalizing a with
  | nil => cases hv
  | cons x xs ih =>
    rcases List.mem_cons.mp hv with h | h
    · subst h
      exact le_trans (foldl_min_le_init xs (min a v)) (min_le_right a v)
    · exact ih h (min a x)

lemma foldl_min_mem (l : List ℚ) (a : ℚ) : l.foldl min a = a ∨ l.foldl min a ∈ l := by
  induction l generalizing a with
  | nil => exact Or.inl rfl
  | cons x xs ih =>
    rcases ih (min a x) with h | h
    · rcases min_cases a x with ⟨hm, _⟩ | ⟨hm, _⟩
      · exact Or.inl (by rw [List.foldl_cons, h, hm])
      · exact Or.inr (List.mem_cons.mpr (Or.inl (by rw [List.foldl_cons, h, hm])))
    · exact Or.inr (List.mem_cons.mpr (Or.inr h))

lemma init_le_foldl_max (l : List ℚ) (a : ℚ) : a ≤ l.foldl max a := by
  induction l generalizing a with
  | nil => exact le_refl a
  | cons x xs ih => exact le_trans (le_max_left a x) (ih (max a x))

lemma mem_le_foldl_max {l : List ℚ} {v : ℚ} (hv : v ∈ l) (a : ℚ) :
    v ≤ l.foldl max a := by
  induction l generalizing a with
  | nil => cases hv
  | cons x xs ih =>
    rcases List.mem_cons.mp hv with h | h
    · subst h
      exact le_trans (le_max_right a v) (init_le_foldl_max xs (max a v))
    · exact ih h (max a x)

lemma foldl_max_mem (l : List ℚ) (a : ℚ) : l.foldl max a = a ∨ l.foldl max a ∈ l := by
  induction l generalizing a with
  | nil => exact Or.inl rfl
  | cons x xs ih =>
    rcases ih (max a x) with h | h
    · rcases max_cases a x with ⟨hm, _⟩ | ⟨hm, _⟩
      · exact Or.inl (by rw [List.foldl_cons, h, hm])
      · exact Or.inr (List.mem_cons.mpr (Or.inl (by rw [List.foldl_cons, h, hm])))
    · exact Or.inr (List.mem_cons.mpr (Or.inr h))

lemma listMin_le_mem {l : List ℚ} {v : ℚ} (hv : v ∈ l) : listMin l ≤ v := by
  cases l with
  | nil => cases hv
  | cons x xs =>
    rcases List.mem_cons.mp hv with h | h
    · subst h; exact foldl_min_le_init xs v
    · exact foldl_min_le_mem h x

lemma mem_le_listMax {l : List ℚ} {v : ℚ} (hv : v ∈ l) : v ≤ listMax l := by
  cases l with
  | nil => cases hv
  | cons x xs =>
    rcases List.mem_cons.mp hv with h | h
    · subst h; exact init_le_foldl_max xs v
    · exact mem_le_foldl_max h x

lemma listMin_mem {l : List ℚ} (hl : l ≠ []) : listMin l ∈ l := by
  cases l with
  | nil => exact absurd rfl hl
  | cons x xs =>
    rcases foldl_min_mem xs x with h | h
    · exact List.mem_cons.mpr (Or.inl h)
    · exact List.mem_cons.mpr (Or.inr h)

lemma listMax_mem {l : List ℚ} (hl : l ≠ []) : listMax l ∈ l := by
  cases l with
  | nil => exact absurd rfl hl
  | cons x xs =>
    rcases foldl_max_mem xs x with h | h
    · exact List.mem_cons.mpr (Or.inl h)
    · exact List.mem_cons.mpr (Or.inr h)

lemma listMin_le_listMax {l : List ℚ} (hl : l ≠ []) : listMin l ≤ listMax l :=
  le_trans (listMin_le_mem (listMax_mem hl)) (le_refl _)

lemma foldl_min_map {f : ℚ → ℚ} (hf : Monotone f) (l : List ℚ) (a : ℚ) :
    (l.map f).foldl min (f a) = f (l.foldl min a) := by
  induction l generalizing a with
  | nil => rfl
  | cons x xs ih =>
    simp only [List.map_cons, List.foldl_cons]
    rw [← hf.map_min, ih (min a x)]

lemma foldl_max_map {f : ℚ → ℚ} (hf : Monotone f) (l : List ℚ) (a : ℚ) :
    (l.map f).foldl max (f a) = f (l.foldl max a) := by
  induction l generalizing a with
  | nil => rfl
  | cons x xs ih =>
    simp only [List.map_cons, List.foldl_cons]
    rw [← hf.map_max, ih (max a x)]

lemma listMin_map_mono {f : ℚ → ℚ} (hf : Monotone f) {l : List ℚ} (hl : l ≠ []) :
    listMin (l.map f) = f (listMin l) := by
  cases l with
  | nil => exact absurd rfl hl
  | cons x xs => simpa [listMin] using foldl_min_map hf xs x

lemma listMax_map_mono {f : ℚ → ℚ} (hf : Monotone f) {l : List ℚ} (hl : l ≠ []) :
    listMax (l.map f) = f (listMax l) := by
  cases l with
  | nil => exact absurd rfl hl
  | cons x xs => simpa [listMax] using foldl_max_map hf xs x

/-! ## Helper lemmas about `normalize_score`, `clip01` and `List.getD` -/

lemma normalize_score_eq_of_eq {values : List ℚ} (inverse : Bool)
    (hc : listMax values = listMin values) :
    normalize_score values inverse = values.map (fun _ => 1/2) := by
  simp only [normalize_score]
  rw [if_pos hc]

lemma normalize_score_eq_of_ne {values : List ℚ} (inverse : Bool)
    (hc : listMax values ≠ listMin values) :
    normalize_score values inverse = values.map (fun v =>
      let normalized := (v - listMin values) / (listMax values - listMin values)
      if inverse then 1 - normalized else normalized) := by
  simp only [normalize_score]
  rw [if_neg hc]

lemma normalize_score_length (values : List ℚ) (inverse : Bool) :
    (normalize_score values inverse).length = values.length := by
  by_cases hc : listMax values = listMin values
  · rw [normalize_score_eq_of_eq inverse hc, List.length_map]
  · rw [normalize_score_eq_of_ne inverse hc, List.length_map]

lemma normalize_score_mem_bounds {values : List ℚ} {inverse : Bool} {x : ℚ}
    (hx : x ∈ normalize_score values inverse) : 0 ≤ x ∧ x ≤ 1 := by
  by_cases hc : listMax values = listMin values
  · rw [normalize_score_eq_of_eq inverse hc] at hx
    rcases List.mem_map.mp hx with ⟨v, _, rfl⟩
    norm_num
  · rw [normalize_score_eq_of_ne inverse hc] at hx
    rcases List.mem_map.mp hx with ⟨v, hv, rfl⟩
    have hvmin : listMin values ≤ v := listMin_le_mem hv
    have hvmax : v ≤ listMax values := mem_le_listMax hv
    have hlt : 0 < listMax values - listMin values := by
      have hle : listMin values ≤ listMax values :=
        listMin_le_listMax (by rintro rfl; exact hc rfl)
      have hne2 : listMin values ≠ listMax values := fun h => hc h.symm
      have : listMin values < listMax values := lt_of_le_of_ne hle hne2
      linarith
    have h0 : 0 ≤ (v - listMin values) / (listMax values - listMin values) :=
      div_nonneg (by linarith) (le_of_lt hlt)
    have h1 : (v - listMin values) / (listMax values - listMin values) ≤ 1 := by
      rw [div_le_one hlt]; linarith
    cases inverse <;> simp only [Bool.false_eq_true, if_false, if_true] <;>
      constructor <;> linarith

lemma clip01_nonneg (x : ℚ) : 0 ≤ clip01 x := le_max_left 0 _

lemma clip01_le_one (x : ℚ) : clip01 x ≤ 1 :=
  max_le (by norm_num) (min_le_left 1 x)

lemma clip01_eq_self {x : ℚ} (h0 : 0 ≤ x) (h1 : x ≤ 1) : clip01 x = x := by
  unfold clip01
  rw [min_eq_right h1, max_eq_right h0]

lemma getD_map {α β : Type} (f : α → β) {l : List α} {i : ℕ}
    (h : i < l.length) (d : α) (e : β) : (l.map f).getD i e = f (l.getD i d) := by
  induction l generalizing i with
  | nil => cases h
  | cons x xs ih =>
    cases i with
    | zero => rfl
    | succ n => exact ih (Nat.lt_of_succ_lt_succ h)

lemma getD_mem {α : Type} {l : List α} {i : ℕ} (h : i < l.length) (d : α) :
    l.getD i d ∈ l := by
  induction l generalizing i with
  | nil => cases h
  | cons x xs ih =>
    cases i with
    | zero => exact List.mem_cons.mpr (Or.inl rfl)
    | succ n => exact List.mem_cons.mpr (Or.inr (ih (Nat.lt_of_succ_lt_succ h)))

lemma length_zipWith3 (f : ℚ → ℚ → ℚ → ℚ) (as bs cs : List ℚ) :
    (zipWith3 f as bs cs).length = min as.length (min bs.length cs.length) := by
  induction as generalizing bs cs with
  | nil => simp [zipWith3]
  | cons a as ih =>
    cases bs with
    | nil => simp [zipWith3]
    | cons b bs =>
      cases cs with
      | nil => simp [zipWith3]
      | cons c cs =>
        simp [zipWith3, ih, Nat.succ_min_succ]

lemma getD_zipWith3 (f : ℚ → ℚ → ℚ → ℚ) {as bs cs : List ℚ} {i : ℕ}
    (ha : i < as.length) (hb : i < bs.length) (hc : i < cs.length) :
    (zipWith3 f as bs cs).getD i 0 = f (as.getD i 0) (bs.getD i 0) (cs.getD i 0) := by
  induction as generalizing bs cs i with
  | nil => cases ha
  | cons a as ih =>
    cases bs with
    | nil => cases hb
    | cons b bs =>
      cases cs with
      | nil => cases hc
      | cons c cs =>
        cases i with
        | zero => rfl
        | succ n =>
          exact ih (Nat.lt_of_succ_lt_succ ha) (Nat.lt_of_succ_lt_succ hb)
            (Nat.lt_of_succ_lt_succ hc)

lemma length_zipWith (f : ℚ → ℚ → ℚ) (as bs : List ℚ) :
    (List.zipWith f as bs).length = min as.length bs.length := by
  simp [List.length_zipWith]

lemma mem_zipWith3 {f : ℚ → ℚ → ℚ → ℚ} {as bs cs : List ℚ} {x : ℚ}
    (hx : x ∈ zipWith3 f as bs cs) : ∃ a b c, x = f a b c := by
  induction as generalizing bs cs with
  | nil => cases hx
  | cons a as ih =>
    cases bs with
    | nil => cases hx
    | cons b bs =>
      cases cs with
      | nil => cases hx
      | cons c cs =>
        rcases List.mem_cons.mp hx with h | h
        · exact ⟨a, b, c, h⟩
        · exact ih h

lemma mem_zipWith5Opt {f : ℚ → ℚ → ℚ → ℚ → ℚ → ℚ}
    {as bs cs : List ℚ} {ds es : List (Option ℚ)} {x : Option ℚ}
    (hx : x ∈ zipWith5Opt f as bs cs ds es) :
    x = none ∨ ∃ a b c d e, x = some (f a b c d e) := by
  induction as generalizing bs cs ds es with
  | nil => cases hx
  | cons a as ih =>
    cases bs with
    | nil => cases hx
    | cons b bs =>
      cases cs with
      | nil => cases hx
      | cons c cs =>
        cases ds with
        | nil => cases hx
        | cons d ds =>
          cases es with
          | nil => cases hx
          | cons e es =>
            rcases List.mem_cons.mp hx with h | h
            · cases d with
              | none => exact Or.inl h
              | some dv =>
                cases e with
                | none => exact Or.inl h
                | some ev => exact Or.inr ⟨a, b, c, dv, ev, h⟩
            · exact ih h

/-- `normalize_score` (with `inverse=False`) is idempotent: the non-constant
branch sends its own minimum to exactly 0 and its own maximum to exactly 1,
so a second pass rescales by `(1 - 0)` and shifts by `0`; the constant
branch maps a constant list to a constant list. -/
lemma normalize_idem (values : List ℚ) :
    normalize_score (normalize_score values false) false = normalize_score values false := by
  by_cases hc : listMax values = listMin values
  · rw [normalize_score_eq_of_eq false hc]
    cases values with
    | nil => rfl
    | cons a l =>
      have hne : (a :: l) ≠ ([] : List ℚ) := by simp
      have hmin : listMin ((a :: l).map (fun _ => (1:ℚ)/2)) = 1/2 :=
        listMin_map_mono monotone_const hne
      have hmax : listMax ((a :: l).map (fun _ => (1:ℚ)/2)) = 1/2 :=
        listMax_map_mono monotone_const hne
      rw [normalize_score_eq_of_eq false (hmax.trans hmin.symm), List.map_map]
      rfl
  · have hvne : values ≠ [] := by rintro rfl; exact hc rfl
    have hlt : listMin values < listMax values :=
      lt_of_le_of_ne (listMin_le_listMax hvne) (fun h => hc h.symm)
    have hdpos : (0:ℚ) < listMax values - listMin values := by linarith
    have hfmono : Monotone (fun v : ℚ =>
        (v - listMin values) / (listMax values - listMin values)) := by
      intro a b hab
      exact (div_le_div_iff_of_pos_right hdpos).mpr (by linarith)
    have hys : normalize_score values false = values.map (fun v =>
        (v - listMin values) / (listMax values - listMin values)) := by
      rw [normalize_score_eq_of_ne false hc]
      rfl
    have hmin_ys : listMin (normalize_score values false) = 0 := by
      rw [hys, listMin_map_mono hfmono hvne, sub_self, zero_div]
    have hmax_ys : listMax (normalize_score values false) = 1 := by
      rw [hys, listMax_map_mono hfmono hvne, div_self (ne_of_gt hdpos)]
    have hne2 : listMax (normalize_score values false) ≠
        listMin (normalize_score values false) := by
      rw [hmin_ys, hmax_ys]; norm_num
    rw [normalize_score_eq_of_ne false hne2, hmin_ys, hmax_ys]
    have hid : ∀ v ∈ normalize_score values false,
        (fun v : ℚ => (v - 0) / (1 - 0)) v = id v := by
      intro v _
      simp
    calc (normalize_score values false).map (fun v => (v - 0) / (1 - 0))
        = (normalize_score values false).map id :=
          List.map_congr_left hid
      _ = normalize_score values false := List.map_id _

lemma ne_nil_of_max_ne_min {values : List ℚ}
    (h : listMax values ≠ listMin values) : values ≠ [] := by
  rintro rfl; exact h rfl

lemma listMin_lt_listMax {values : List ℚ}
    (h : listMax values ≠ listMin values) : listMin values < listMax values :=
  lt_of_le_of_ne (listMin_le_listMax (ne_nil_of_max_ne_min h))
    (fun heq => h heq.symm)

lemma normalize_getD_mem (values : List ℚ) (b : Bool) {i : ℕ}
    (hi : i < values.length) :
    (normalize_score values b).getD i 0 ∈ normalize_score values b :=
  getD_mem (by rw [normalize_score_length]; exact hi) 0

/-! ## Claim theorems -/

/-- Claim C3: the claim asserts the Metric Normalizer is NOT idempotent, with
some vector `x` satisfying `normalize(normalize(x)) ≠ normalize(x)`.  No such
vector exists: `normalize_score` (inverse off) is idempotent, because its
non-constant branch maps its own minimum to exactly 0 and its own maximum to
exactly 1, so a second pass is the identity, and its constant branch is
constant. -/
theorem c3_counterexample :
    ¬ ∃ x : List ℚ,
      normalize_score (normalize_score x false) false ≠ normalize_score x false :=
  fun ⟨x, hx⟩ => hx (normalize_idem x)

/-- Claim C3 (amended): `normalize_score` IS idempotent —
`normalize(normalize(x)) = normalize(x)` for every input vector; what does
hold of the population-dependence intuition is only that `normalize` is not
the identity on vectors already inside `[0,1]` (e.g. `[0.2, 0.4]` rescales
to `[0, 1]`). -/
theorem c3_normalize_idempotent :
    (∀ x : List ℚ,
      normalize_score (normalize_score x false) false = normalize_score x false) ∧
    normalize_score [1/5, 2/5] false ≠ [1/5, 2/5] := by
  refine ⟨normalize_idem, ?_⟩
  norm_num [normalize_score, listMin, listMax, min_def, max_def]

/-- Claim C4: the Metric Normalizer contract — elementwise
`(values[i] − min) / (max − min)`, values in `[0,1]`, inverse mode returning
one minus that; a constant (or singleton) input yields 0.5 everywhere, in
particular `normalize([5,5,5]) = [0.5,0.5,0.5]`; with distinct extrema the
minimum maps to exactly 0 and the maximum to exactly 1. -/
theorem c4_normalize_contract (values : List ℚ) :
    ((normalize_score values false).length = values.length ∧
     (normalize_score values true).length = values.length) ∧
    (listMax values ≠ listMin values →
      ∀ i : ℕ, i < values.length →
        ((normalize_score values false).getD i 0 =
            (values.getD i 0 - listMin values) / (listMax values - listMin values) ∧
         (normalize_score values true).getD i 0 =
            1 - (values.getD i 0 - listMin values) / (listMax values - listMin values)) ∧
        0 ≤ (normalize_score values false).getD i 0 ∧
        (normalize_score values false).getD i 0 ≤ 1) ∧
    (listMax values = listMin values →
      ∀ (inverse : Bool) (i : ℕ), i < values.length →
        (normalize_score values inverse).getD i 0 = 1/2) ∧
    (listMax values ≠ listMin values →
      (0:ℚ) ∈ normalize_score values false ∧ (1:ℚ) ∈ normalize_score values false) ∧
    normalize_score [5, 5, 5] false = [1/2, 1/2, 1/2] := by
  refine ⟨⟨normalize_score_length values false, normalize_score_length values true⟩,
    ?_, ?_, ?_, ?_⟩
  · intro h i hi
    have hmem := normalize_getD_mem values false hi
    have hbounds := normalize_score_mem_bounds hmem
    refine ⟨⟨?_, ?_⟩, hbounds.1, hbounds.2⟩
    · rw [normalize_score_eq_of_ne false h, getD_map _ hi 0 0]
      rfl
    · rw [normalize_score_eq_of_ne true h, getD_map _ hi 0 0]
      rfl
  · intro h inverse i hi
    rw [normalize_score_eq_of_eq inverse h, getD_map _ hi 0 0]
  · intro h
    have hvne : values ≠ [] := ne_nil_of_max_ne_min h
    have hlt := listMin_lt_listMax h
    have hd : listMax values - listMin values ≠ 0 := by linarith
    rw [normalize_score_eq_of_ne false h]
    constructor
    · exact List.mem_map.mpr ⟨listMin values, listMin_mem hvne, by simp⟩
    · exact List.mem_map.mpr ⟨listMax values, listMax_mem hvne, by
        simp [div_self hd]⟩
  · simp [normalize_score, listMin, listMax, max_self, min_self, List.foldl]

/-- Witness for C4 at the concrete vector `[1, 3]`: index 0 normalizes to
exactly 0 in direct mode and to exactly 1 in inverse mode. -/
theorem c4_normalize_contract_witness :
    (normalize_score [1, 3] false).getD 0 0 = 0 ∧
    (normalize_score [1, 3] true).getD 0 0 = 1 := by
  have hne : listMax [(1:ℚ), 3] ≠ listMin [(1:ℚ), 3] := by
    norm_num [listMax, listMin, List.foldl, max_def, min_def]
  have h := (c4_normalize_contract [1, 3]).2.1 hne 0 (by norm_num)
  refine ⟨?_, ?_⟩
  · rw [h.1.1]
    norm_num [listMax, listMin, List.foldl, max_def, min_def]
  · rw [h.1.2]
    norm_num [listMax, listMin, List.foldl, max_def, min_def]

/-- Claim C1: the claim asserts every formula version keeps the composite
score in `[0,1]` for all inputs, including out-of-range raw sub-metrics.
This fails for the scorer of `integrate_data.py` it cites: that function
applies no clamp at all, and an out-of-range SVI percentile of 5.0 (with
`HRCN_RISKR = "Very Low"` and GDP-per-capita $150,000) produces the score
2.04 > 1. -/
theorem c1_counterexample :
    integrate_vulnerability_score ⟨some 5, some "Very Low", 150000⟩ = some (51/25) ∧
    (1:ℚ) < 51/25 := by
  norm_num [integrate_vulnerability_score, risk_map, pyRound4, roundHalfEven, min_def]

/-- Claim C1 (amended): the three versioned scorers that clamp — the base
scorer of process_data.py, the NOAA-enhanced recomputation, and the
Statista-enhanced scorer — keep every produced numeric score in `[0,1]` for
arbitrary inputs, including out-of-range sub-metrics (for the
Statista-enhanced scorer, whose unguarded property normalization and rural
map can produce a NaN row, this covers every row whose score is a number);
the legacy `integrate_data.py` scorer has no clamp and can exceed 1. -/
theorem c1_scores_clamped :
    (∀ hurricane_risk social_vulnerability gdp population : List ℚ,
      ∀ x ∈ calculate_vulnerability_scores hurricane_risk social_vulnerability
          gdp population, 0 ≤ x ∧ x ≤ 1) ∧
    (∀ hurricane_risk social_vulnerability econ_vulnerability : List ℚ,
      ∀ x ∈ noaa_vulnerability_scores hurricane_risk social_vulnerability
          econ_vulnerability, 0 ≤ x ∧ x ≤ 1) ∧
    (∀ (hurricane_risk social_vulnerability econ_vulnerability
        median_home_value : List ℚ) (rural_status : List String),
      ∀ x ∈ calculate_enhanced_vulnerability hurricane_risk social_vulnerability
          econ_vulnerability median_home_value rural_status,
        ∀ q : ℚ, x = some q → 0 ≤ q ∧ q ≤ 1) := by
  refine ⟨?_, ?_, ?_⟩
  · intro hr sv gdp pop x hx
    rcases mem_zipWith3 hx with ⟨a, b, c, rfl⟩
    exact ⟨clip01_nonneg _, clip01_le_one _⟩
  · intro hr sv ev x hx
    rcases mem_zipWith3 hx with ⟨a, b, c, rfl⟩
    exact ⟨clip01_nonneg _, clip01_le_one _⟩
  · intro hr sv ev mhv rs x hx q hq
    rcases mem_zipWith5Opt hx with h | ⟨a, b, c, d, e, rfl⟩
    · rw [h] at hq; cases hq
    · rw [Option.some_inj] at hq
      rw [← hq]
      exact ⟨clip01_nonneg _, clip01_le_one _⟩

/-- Witness for C1: concrete rows through each clamped scorer.  The base
scorer at hurricane-risk 2 and SVI 3 (out of range) clamps to exactly 1;
the Statista-enhanced scorer on a small concrete frame produces the numeric
score 3/20, inside `[0,1]`. -/
theorem c1_scores_clamped_witness :
    ((0:ℚ) ≤ 1 ∧ (1:ℚ) ≤ 1) ∧ ((0:ℚ) ≤ 3/20 ∧ (3/20:ℚ) ≤ 1) :=
  ⟨c1_scores_clamped.1 [2] [3] [1] [1] 1 (by
      norm_num [calculate_vulnerability_scores, zipWith3, economic_vulnerability,
        gdp_per_capita, normalize_score, listMin, listMax, clip01, max_def,
        min_def, List.foldl]),
   c1_scores_clamped.2.2 [0, 0] [0, 0] [0, 0] [1, 3] ["rural", "urban"]
     (some (3/20)) (by
      norm_num [calculate_enhanced_vulnerability, zipWith5Opt, property_exposure,
        rural_map, listMin, listMax, clip01, max_def, min_def, List.foldl])
     (3/20) rfl⟩

lemma getD_zipWith (f : ℚ → ℚ → ℚ) {as bs : List ℚ} {i : ℕ}
    (ha : i < as.length) (hb : i < bs.length) :
    (List.zipWith f as bs).getD i 0 = f (as.getD i 0) (bs.getD i 0) := by
  induction as generalizing bs i with
  | nil => cases ha
  | cons a as ih =>
    cases bs with
    | nil => cases hb
    | cons b bs =>
      cases i with
      | zero => rfl
      | succ n => exact ih (Nat.lt_of_succ_lt_succ ha) (Nat.lt_of_succ_lt_succ hb)

/-- Claim C5: the base formula version scores every county row as
`0.40 * hurricane_risk + 0.30 * social_vulnerability +
0.30 * economic_vulnerability`, where the economic vulnerability column is
the inverse-normalized GDP-per-capita.  (The `clip(0,1)` that follows is the
identity here because the in-range sub-metrics keep the weighted sum inside
`[0,1]`.) -/
theorem c5_base_formula (hr sv gdp pop : List ℚ) (i : ℕ)
    (hhr : i < hr.length) (hsv : i < sv.length)
    (hgdp : i < gdp.length) (hpop : i < pop.length)
    (h0 : 0 ≤ hr.getD i 0) (h1 : hr.getD i 0 ≤ 1)
    (h2 : 0 ≤ sv.getD i 0) (h3 : sv.getD i 0 ≤ 1) :
    (calculate_vulnerability_scores hr sv gdp pop).getD i 0 =
      40/100 * hr.getD i 0 + 30/100 * sv.getD i 0 +
        30/100 * (economic_vulnerability gdp pop).getD i 0 ∧
    economic_vulnerability gdp pop =
      normalize_score (gdp_per_capita gdp pop) true := by
  have hev : i < (economic_vulnerability gdp pop).length := by
    unfold economic_vulnerability
    rw [normalize_score_length]
    unfold gdp_per_capita
    rw [List.length_zipWith]
    exact lt_min hgdp hpop
  have hmem : (economic_vulnerability gdp pop).getD i 0 ∈
      normalize_score (gdp_per_capita gdp pop) true := getD_mem hev 0
  have he := normalize_score_mem_bounds hmem
  refine ⟨?_, rfl⟩
  unfold calculate_vulnerability_scores
  rw [getD_zipWith3 _ hhr hsv hev]
  exact clip01_eq_self (by linarith [he.1, he.2]) (by linarith [he.1, he.2])

/-- Witness for C5: a one-county frame with hurricane-risk 1/2, SVI 1/2,
GDP 1 and population 1 scores `0.40(1/2) + 0.30(1/2) + 0.30(1/2) = 1/2`
(the single-row GDP-per-capita column normalizes to the constant 1/2). -/
theorem c5_base_formula_witness :
    (calculate_vulnerability_scores [1/2] [1/2] [1] [1]).getD 0 0 = 1/2 := by
  have h := c5_base_formula [1/2] [1/2] [1] [1] 0
    (by norm_num) (by norm_num) (by norm_num) (by norm_num)
    (by norm_num [List.getD_cons_zero]) (by norm_num [List.getD_cons_zero])
    (by norm_num [List.getD_cons_zero]) (by norm_num [List.getD_cons_zero])
  rw [h.1]
  norm_num [List.getD_cons_zero, economic_vulnerability, gdp_per_capita,
    normalize_score, listMin, listMax, List.zipWith]

/-- Claim C8: the vulnerability rank is a descending rank with `min`
tie-break semantics.  Concretely `[0.9, 0.9, 0.7]` ranks to `[1, 1, 3]`
(rank 3, not 2, for the third row); in general every row's rank is one more
than the number of strictly greater scores, so tied scores share a rank and
the next distinct score skips the tied positions. -/
theorem c8_rank_min :
    rank_min_desc [9/10, 9/10, 7/10] = [1, 1, 3] ∧
    (∀ (scores : List ℚ) (i j : ℕ), i < scores.length → j < scores.length →
      scores.getD i 0 = scores.getD j 0 →
      (rank_min_desc scores).getD i 0 = (rank_min_desc scores).getD j 0) ∧
    (∀ (scores : List ℚ) (i : ℕ), i < scores.length →
      (rank_min_desc scores).getD i 0 =
        1 + (scores.filter (fun w => decide (scores.getD i 0 < w))).length) := by
  have key : ∀ (scores : List ℚ) (i : ℕ), i < scores.length →
      (rank_min_desc scores).getD i 0 =
        1 + (scores.filter (fun w => decide (scores.getD i 0 < w))).length := by
    intro scores i hi
    unfold rank_min_desc
    rw [getD_map _ hi 0 0]
  refine ⟨?_, ?_, key⟩
  · norm_num [rank_min_desc, List.filter]
  · intro scores i j hi hj hij
    rw [key scores i hi, key scores j hj, hij]

/-- Witness for C8: in `[0.9, 0.9, 0.7]` the two tied 0.9 rows receive the
same rank. -/
theorem c8_rank_min_witness :
    (rank_min_desc [9/10, 9/10, 7/10]).getD 0 0 =
      (rank_min_desc [9/10, 9/10, 7/10]).getD 1 0 :=
  c8_rank_min.2.1 [9/10, 9/10, 7/10] 0 1 (by norm_num) (by norm_num)
    (by norm_num [List.getD_cons_zero, List.getD_cons_succ])

/-- Claim C2 (failing input): a two-county base layer stands in for the
67-county one; county 12003 appears in the GDP table but not in the SVI/NRI
tables.  The left joins do preserve the base row count, and the
`GDP_PER_CAPITA` fill does give the unmatched county its $50,000 default —
but the county's composite score is NaN (`none`): `Series.get("RPL_THEMES", 0.5)` returns the merged column's NaN, not the 0.5 default, and the NaN
propagates through the weighted sum, contradicting the claim that no
null/NaN value reaches the final score. -/
theorem c2_unmatched_county_nan :
    (integrate_datasets ["12001", "12003"]
        [("12001", 100), ("12003", 50)]
        [("12001", (1/2, 100000))]
        [("12001", "Relatively Moderate")]).length = 2 ∧
    (integrate_datasets ["12001", "12003"]
        [("12001", 100), ("12003", 50)]
        [("12001", (1/2, 100000))]
        [("12001", "Relatively Moderate")]).getD 1 ⟨"", 0, none⟩ =
      ⟨"12003", 50000, none⟩ := by
  constructor <;>
    simp [integrate_datasets, integrate_merge, left_merge,
      integrate_gdp_per_capita, integrate_vulnerability_score, List.filter]

lemma county_threats_empty_all_none (core : ℚ → ℚ → ℚ → ℚ → ℚ)
    (counties : List CountyRow) :
    (calculate_county_threats core counties []).all
      (fun t => decide (t.current_threat_level = ThreatLevel.none)) = true := by
  rw [List.all_eq_true]
  intro t ht
  rcases List.mem_filterMap.mp ht with ⟨c, _, heq⟩
  rcases hcen : c.centroid with _ | ⟨clat, clon⟩
  · rw [hcen] at heq; cases heq
  · rw [hcen] at heq
    rw [Option.some_inj] at heq
    rw [← heq]
    rfl

/-- Claim C6: the boundary-inclusive distance bands — exactly 100 km is
extreme, 250 high, 500 moderate, 1000 low, 1001 none — the classifier with
an empty active-storm list leaves every county at threat level none, and a
single well-formed storm is classified exactly by the band of its
haversine distance. -/
theorem c6_threat_banding :
    (threatBand 100 = ThreatLevel.extreme ∧ threatBand 250 = ThreatLevel.high ∧
     threatBand 500 = ThreatLevel.moderate ∧ threatBand 1000 = ThreatLevel.low ∧
     threatBand 1001 = ThreatLevel.none) ∧
    (∀ (core : ℚ → ℚ → ℚ → ℚ → ℚ) (clat clon : ℚ),
      countyThreatLevel core clat clon [] = ThreatLevel.none) ∧
    (∀ (core : ℚ → ℚ → ℚ → ℚ → ℚ) (counties : List CountyRow),
      (calculate_county_threats core counties []).all
        (fun t => decide (t.current_threat_level = ThreatLevel.none)) = true) ∧
    (∀ (core : ℚ → ℚ → ℚ → ℚ → ℚ) (clat clon la lo : ℚ) (nm : String),
      countyThreatLevel core clat clon [⟨PyVal.num la, PyVal.num lo, nm⟩] =
        threatBand (core clat clon la lo)) := by
  refine ⟨?_, fun core clat clon => rfl, county_threats_empty_all_none,
    fun core clat clon la lo nm => rfl⟩
  norm_num [threatBand]

/-- Claim C9: a failed live storm fetch (a caught `requests` exception)
yields the empty active-storm list, and the classifier run on that empty
list gives every county the threat level none instead of aborting. -/
theorem c9_fetch_failure_all_none :
    ∀ (e : Unit) (core : ℚ → ℚ → ℚ → ℚ → ℚ) (counties : List CountyRow),
      fetch_active_storms (Except.error e) = [] ∧
      (calculate_county_threats core counties
          (fetch_active_storms (Except.error e))).all
        (fun t => decide (t.current_threat_level = ThreatLevel.none)) = true :=
  fun _ core counties => ⟨rfl, county_threats_empty_all_none core counties⟩

lemma haversine_malformed (core : ℚ → ℚ → ℚ → ℚ → ℚ) {s : Storm}
    (h : toFloat? s.latitude = none ∨ toFloat? s.longitude = none) :
    ∀ lat1 lon1 : PyVal,
      haversine_distance core lat1 lon1 s.latitude s.longitude = none := by
  intro lat1 lon1
  rcases h with h | h
  · cases h1 : toFloat? lat1 <;> cases h2 : toFloat? lon1 <;>
      cases h4 : toFloat? s.longitude <;>
      simp [haversine_distance, h, h1, h2, h4]
  · cases h1 : toFloat? lat1 <;> cases h2 : toFloat? lon1 <;>
      cases h3 : toFloat? s.latitude <;>
      simp [haversine_distance, h, h1, h2, h3]

lemma scan_skips_malformed (core : ℚ → ℚ → ℚ → ℚ → ℚ) {s : Storm}
    (h : toFloat? s.latitude = none ∨ toFloat? s.longitude = none)
    (clat clon : ℚ) (l1 l2 : List Storm) :
    scanStorms core clat clon (l1 ++ s :: l2) =
      scanStorms core clat clon (l1 ++ l2) := by
  unfold scanStorms
  rw [List.foldl_append, List.foldl_append, List.foldl_cons]
  congr 1
  simp [haversine_malformed core h, ltInf]

lemma countyThreatLevel_skips_malformed (core : ℚ → ℚ → ℚ → ℚ → ℚ) {s : Storm}
    (h : toFloat? s.latitude = none ∨ toFloat? s.longitude = none)
    (clat clon : ℚ) (l1 l2 : List Storm) :
    countyThreatLevel core clat clon (l1 ++ s :: l2) =
      countyThreatLevel core clat clon (l1 ++ l2) := by
  unfold countyThreatLevel
  rw [scan_skips_malformed core h]

/-- Claim C10: `haversine_distance` is total — any argument that fails the
`float(...)` conversion (`None` or a non-numeric value) makes it return
infinity instead of raising — and a storm with malformed coordinates is
invisible to the threat computation: deleting it from the active-storm list,
wherever it sits, leaves every county's threat record unchanged, so it can
never raise a threat level. -/
theorem c10_haversine_total (core : ℚ → ℚ → ℚ → ℚ → ℚ) (s : Storm)
    (h : toFloat? s.latitude = none ∨ toFloat? s.longitude = none) :
    (∀ lat1 lon1 : PyVal,
      haversine_distance core lat1 lon1 s.latitude s.longitude = none) ∧
    (∀ (counties : List CountyRow) (storms1 storms2 : List Storm),
      calculate_county_threats core counties (storms1 ++ s :: storms2) =
        calculate_county_threats core counties (storms1 ++ storms2)) := by
  refine ⟨haversine_malformed core h, ?_⟩
  intro counties l1 l2
  unfold calculate_county_threats
  apply List.filterMap_congr
  intro c _
  rcases hcen : c.centroid with _ | ⟨clat, clon⟩
  · rfl
  · dsimp only
    rw [countyThreatLevel_skips_malformed core h]

/-- Witness for C10: a storm whose latitude is `None` yields an infinite
distance, and appending it to an empty storm list leaves the single-county
threat assessment identical to the no-storm run. -/
theorem c10_haversine_total_witness :
    haversine_distance (fun _ _ _ _ => 0) (PyVal.num 25) (PyVal.num (-80))
      PyVal.nonNumeric (PyVal.num 0) = none ∧
    calculate_county_threats (fun _ _ _ _ => 0)
        [⟨"Miami-Dade", some (25, -80), 9/10⟩]
        [⟨PyVal.nonNumeric, PyVal.num 0, "malformed"⟩] =
      calculate_county_threats (fun _ _ _ _ => 0)
        [⟨"Miami-Dade", some (25, -80), 9/10⟩] [] :=
  ⟨(c10_haversine_total (fun _ _ _ _ => 0)
      ⟨PyVal.nonNumeric, PyVal.num 0, "malformed"⟩ (Or.inl rfl)).1 _ _,
   (c10_haversine_total (fun _ _ _ _ => 0)
      ⟨PyVal.nonNumeric, PyVal.num 0, "malformed"⟩ (Or.inl rfl)).2
     [⟨"Miami-Dade", some (25, -80), 9/10⟩] [] []⟩

instance : IsTotal CountyThreat vulnGE :=
  ⟨fun a b => le_total b.enhanced_vulnerability a.enhanced_vulnerability⟩

instance : IsTrans CountyThreat vulnGE :=
  ⟨fun _ _ _ h1 h2 => le_trans h2 h1⟩

/-- Claim C7: the claim asserts a county appears in the critical-counties
list if and only if its threat level is extreme/high and its score is at
least 0.6, and that a high-threat county with score 0.60 "always appears".
The list persisted by `generate_summary_stats` keeps only the first ten
entries of the descending ordering, so with ten critical counties of score
0.9 present, the qualifying high/0.60 county is absent from it. -/
theorem c7_counterexample :
    (⟨"Target", ThreatLevel.high, 6/10⟩ : CountyThreat) ∈
        (List.replicate 10 (⟨"Filler", ThreatLevel.extreme, 9/10⟩ : CountyThreat) ++
          [⟨"Target", ThreatLevel.high, 6/10⟩]) ∧
    isCritical ⟨"Target", ThreatLevel.high, 6/10⟩ = true ∧
    (⟨"Target", ThreatLevel.high, 6/10⟩ : CountyThreat) ∉
      summary_critical_counties
        (List.replicate 10 (⟨"Filler", ThreatLevel.extreme, 9/10⟩ : CountyThreat) ++
          [⟨"Target", ThreatLevel.high, 6/10⟩]) := by
  refine ⟨by simp, ?_, ?_⟩
  · norm_num [isCritical]
  · norm_num [summary_critical_counties, List.insertionSort, List.orderedInsert,
      isCritical, vulnGE, List.filter, List.replicate]

/-- Claim C7 (amended): in the full critical list served by
`/api/realtime/critical-threats`, a county appears if and only if its threat
level is extreme or high and its vulnerability is at least 0.6 (so a
moderate/0.95 county never appears and a high/0.60 county always does), and
the list is sorted descending by vulnerability; the critical list stored in
the summary statistics is the first ten entries of that same ordering, so
membership there additionally requires ranking in its top ten. -/
theorem c7_critical_list (threats : List CountyThreat) :
    (∀ t : CountyThreat,
      t ∈ get_critical_threats threats ↔
        t ∈ threats ∧
        (t.current_threat_level = ThreatLevel.extreme ∨
         t.current_threat_level = ThreatLevel.high) ∧
        6/10 ≤ t.enhanced_vulnerability) ∧
    List.Sorted vulnGE (get_critical_threats threats) ∧
    summary_critical_counties threats = (get_critical_threats threats).take 10 := by
  refine ⟨?_, ?_, rfl⟩
  · intro t
    unfold get_critical_threats
    rw [List.mem_insertionSort, List.mem_filter]
    simp [isCritical, decide_eq_true_eq, and_assoc]
  · exact List.sorted_insertionSort vulnGE _

/-- Witness for C7: a high-threat county with vulnerability exactly 0.60 is
a member of the API critical list, and a moderate-threat county with
vulnerability 0.95 is not. -/
theorem c7_critical_list_witness :
    (⟨"Target", ThreatLevel.high, 6/10⟩ : CountyThreat) ∈
      get_critical_threats [⟨"Target", ThreatLevel.high, 6/10⟩] ∧
    (⟨"Calm", ThreatLevel.moderate, 95/100⟩ : CountyThreat) ∉
      get_critical_threats [⟨"Calm", ThreatLevel.moderate, 95/100⟩] :=
  ⟨((c7_critical_list [⟨"Target", ThreatLevel.high, 6/10⟩]).1 _).mpr
      ⟨by simp, Or.inr rfl, by norm_num⟩,
   fun hmem => by
    have h := ((c7_critical_list [⟨"Calm", ThreatLevel.moderate, 95/100⟩]).1 _).mp hmem
    rcases h.2.1 with h1 | h1 <;> cases h1⟩

end Lanzat
